import Mathlib

/-!
Shallow embedding of the prediction-serving app in `src/app.py`:
the schema validator (`check_valid_column`, `check_categorical_values`),
the observation store backed by a table with a unique key on
`observation_id`, and the two request handlers `predict` and `update`.
-/

namespace App

/-- A JSON-ish request value as far as the app can observe it: a string,
a boolean, or an integer.  (Float-valued fields such as the galactic
coordinates are never compared against categorical sets nor formatted
into any error message, so an integer constructor suffices for every
value the claims touch.) -/
inductive Value where
  | str (s : String)
  | bool (b : Bool)
  | int (n : Int)
deriving DecidableEq

/-- Python `str(v)` / `"\x7b\x7d".format(v)` rendering of a value. -/
def Value.pyStr : Value → String
  | .str s => s
  | .bool b => if b then "True" else "False"
  | .int n => toString n

/-- Python truthiness `bool(v)`: a string is truthy iff nonempty, an
integer iff nonzero. -/
def Value.pyBool : Value → Bool
  | .str s => !(s == "")
  | .bool b => b
  | .int n => !(n == 0)

/-- Python membership `v in cats` where `cats` is a list of strings:
only a string value can match, by exact case-sensitive equality. -/
def Value.inPyList (v : Value) (cats : List String) : Bool :=
  match v with
  | .str s => cats.contains s
  | _ => false

/-- An observation: the deserialized JSON object of the request, a
finite mapping from field name to value (association list, first
binding wins, mirroring dict lookup). -/
abbrev Obs := List (String × Value)

/-- `observation[k]` as an optional lookup (a missing key is a Python
`KeyError`, i.e. an unhandled fault). -/
def lookupVal (o : Obs) (k : String) : Option Value :=
  List.lookup k o

/-- The key set of the observation, `set(observation.keys())`. -/
def obsKeys (o : Obs) : Finset String :=
  (List.map Prod.fst o).toFinset

/-- The fixed required field set `valid_columns` of `check_valid_column`. -/
def valid_columns : Finset String :=
  { "observation_id",
    "Type",
    "Date",
    "Part of a standard enforcement protocol",
    "Galactic X",
    "Galactic Y",
    "Reproduction",
    "Age range",
    "Self-defined species category",
    "Officer-defined species category",
    "Governing law",
    "Object of inspection",
    "Inspection involving more than just outerwear",
    "Enforcement station" }

/-- An error payload as produced by the app.  The missing/extra column
messages interpolate a Python `set`, whose textual rendering order is
unspecified, so those two are kept structurally as the set they
display; every other error is a concrete string. -/
inductive ErrVal where
  | str (s : String)
  | missingSet (s : Finset String)
  | extraSet (s : Finset String)
deriving DecidableEq

/-- `check_valid_column(observation)`: the key set must equal
`valid_columns`; missing columns are reported first, then extra
columns; on success returns `(True, "")`. -/
def check_valid_column (observation : Obs) : Bool × ErrVal :=
  let keys := obsKeys observation
  if 0 < (valid_columns \ keys).card then
    (false, .missingSet (valid_columns \ keys))
  else if 0 < (keys \ valid_columns).card then
    (false, .extraSet (keys \ valid_columns))
  else
    (true, .str "")

/-- Allowed values of the categorical field `Type`. -/
def typeCategories : List String :=
  ["Entity inspection", "Entity and Spaceship search", "Spaceship search"]

/-- Allowed values of the categorical field `Reproduction`. -/
def reproductionCategories : List String :=
  ["Asexual", "Sexual"]

/-- Allowed values of the categorical field `Age range`. -/
def ageRangeCategories : List String :=
  ["Senior", "Adult", "Young Adult", "Young", "Child"]

/-- The `valid_category_map` of `check_categorical_values`, in dict
insertion order. -/
def valid_category_map : List (String × List String) :=
  [ ("Type", typeCategories),
    ("Reproduction", reproductionCategories),
    ("Age range", ageRangeCategories) ]

/-- The error string for an out-of-set categorical value: the field,
the offending value, and the allowed values comma-joined, each
single-quoted. -/
def invalidCatMsg (key : String) (value : Value) (cats : List String) : String :=
  "Invalid value provided for " ++ key ++ ": " ++ value.pyStr ++
    ". Allowed values are: " ++
    String.intercalate "," (cats.map (fun v => "\x27" ++ v ++ "\x27"))

/-- The error string of the missing-categorical-field branch.  The
source sets `error = "Categorical field \x7b\x7d missing"` and never
calls `.format(key)` on it, so the literal placeholder is returned. -/
def missingCatMsg : String := "Categorical field \x7b\x7d missing"

/-- The loop body of `check_categorical_values` over the remaining
entries of `valid_category_map`. -/
def checkCatAux (o : Obs) : List (String × List String) → Bool × String
  | [] => (true, "")
  | (key, cats) :: rest =>
    match lookupVal o key with
    | some value =>
      if value.inPyList cats then checkCatAux o rest
      else (false, invalidCatMsg key value cats)
    | none => (false, missingCatMsg)

/-- `check_categorical_values(observation)`. -/
def check_categorical_values (observation : Obs) : Bool × String :=
  checkCatAux observation valid_category_map

/-- A persisted `Prediction` row: `observation_id` is a `TextField`
with a unique constraint (peewee coerces the assigned value with
`str`), `observation` holds the raw request payload verbatim, and
`label` holds whatever Python value was assigned to the model field
before saving. -/
structure PredRecord where
  observation_id : String
  observation : String
  label : Value
deriving DecidableEq

/-- The observation store: the rows of the `prediction` table. -/
abbrev Store := List PredRecord

/-- `p.save()` on a fresh row: the unique constraint on
`observation_id` makes the insert itself fail with `IntegrityError`
(`none`) when a row with the same id already exists; otherwise the row
is appended. -/
def insertRecord (s : Store) (r : PredRecord) : Option Store :=
  if List.any s (fun p => p.observation_id == r.observation_id) then none
  else some (s ++ [r])

/-- Overwrite the `label` field of the first row matching `id` (the
row returned by `Prediction.get`), leaving every other field and row
unchanged. -/
def updateFirstLabel : Store → String → Value → Store
  | [], _, _ => []
  | p :: rest, id, lv =>
    if p.observation_id == id then ⟨p.observation_id, p.observation, lv⟩ :: rest
    else p :: updateFirstLabel rest id lv

/-- A JSON response body: `jsonify` of a dict holding some subset of
the keys `observation_id`, `label`, `error`. -/
structure Response where
  observation_id : Option Value
  label : Option Bool
  error : Option ErrVal
deriving DecidableEq

/-- The duplicate-key error string of the `predict` handler. -/
def alreadyExistsMsg (id : String) : String :=
  "Observation ID: \"" ++ id ++ "\" already exists"

/-- The not-found error string of the `update` handler. -/
def doesNotExistMsg (id : String) : String :=
  "Observation ID: \"" ++ id ++ "\" does not exist"

/-- The `predict` handler: validate columns, then categorical values
(each failure returns `\x7berror\x7d` and stops), then read the id, compute
the label with the pipeline (the oracle), build the response, and
attempt the insert; a duplicate id adds the soft error to the response
and rolls back, leaving the store unchanged.  `none` models an
unhandled fault (the id key missing after validation cannot occur). -/
def predict (oracle : Obs → Bool) (observation : Obs) (rawData : String)
    (s : Store) : Option (Response × Store) :=
  match check_valid_column observation with
  | (false, err) => some (⟨none, none, some err⟩, s)
  | (true, _) =>
    match check_categorical_values observation with
    | (false, err) => some (⟨none, none, some (.str err)⟩, s)
    | (true, _) =>
      match lookupVal observation "observation_id" with
      | none => none
      | some idv =>
        let label := oracle observation
        match insertRecord s ⟨idv.pyStr, rawData, .bool label⟩ with
        | some s2 => some (⟨some idv, some label, none⟩, s2)
        | none =>
          some (⟨some idv, some label, some (.str (alreadyExistsMsg idv.pyStr))⟩, s)

/-- The `update` handler: look up the row by exact id;
if absent return the not-found error; if present assign
`str(observation["label"])` to its label field, save, and respond with
the id and the truthiness of the given label.  `none` models an
unhandled fault (`KeyError` on a missing `observation_id` or `label`
key). -/
def update (observation : Obs) (s : Store) : Option (Response × Store) :=
  match lookupVal observation "observation_id" with
  | none => none
  | some idv =>
    match List.find? (fun p => p.observation_id == idv.pyStr) s with
    | none => some (⟨none, none, some (.str (doesNotExistMsg idv.pyStr))⟩, s)
    | some _ =>
      match lookupVal observation "label" with
      | none => none
      | some lv =>
        some (⟨some idv, some lv.pyBool, none⟩,
          updateFirstLabel s idv.pyStr (.str lv.pyStr))

/-- A request against the service: a record-and-predict call with its
raw payload, or a correct-label call. -/
inductive Op where
  | predictReq (observation : Obs) (rawData : String)
  | updateReq (observation : Obs)

/-- Apply one request to the store; a handler fault (`none`) happens
before any save and leaves the store as it was. -/
def applyOp (oracle : Obs → Bool) (s : Store) : Op → Store
  | .predictReq observation rawData =>
    match predict oracle observation rawData s with
    | some (_, s2) => s2
    | none => s
  | .updateReq observation =>
    match update observation s with
    | some (_, s2) => s2
    | none => s

/-- Run a sequence of requests against the store. -/
def run (oracle : Obs → Bool) (s : Store) (ops : List Op) : Store :=
  List.foldl (applyOp oracle) s ops

/-- The uniqueness invariant: no two rows share an `observation_id`. -/
def UniqueIds (s : Store) : Prop :=
  List.Nodup (List.map PredRecord.observation_id s)

/-- A fully well-formed example observation, field for field the one of
the repository's example request. -/
def exObs : Obs :=
  [ ("observation_id", .str "8b2de40d-d98b-4cb5-aa49-f471gbja89"),
    ("Type", .str "Entity inspection"),
    ("Date", .str "3919-08-16 14:37:00+00:00"),
    ("Part of a standard enforcement protocol", .bool true),
    ("Galactic X", .int 3434),
    ("Galactic Y", .int 2321),
    ("Reproduction", .str "Sexual"),
    ("Age range", .str "Young"),
    ("Self-defined species category", .str "Terran - Northern"),
    ("Officer-defined species category", .str "Terran"),
    ("Governing law", .str "Intergalactic Substance Regulation 3919"),
    ("Object of inspection", .str "Controlled substances"),
    ("Inspection involving more than just outerwear", .bool false),
    ("Enforcement station", .str "Dyson Sphere F76-JK") ]

/-- The example observation with one unrecognized extra field. -/
def exObsExtra : Obs := ("Zzz", .str "x") :: exObs

/-- A key that appears among an observation's keys can be looked up. -/
lemma lookup_isSome_of_mem_keys {o : Obs} {k : String}
    (h : k ∈ List.map Prod.fst o) : (lookupVal o k).isSome := by
  induction o with
  | nil => simp at h
  | cons kv rest ih =>
    obtain ⟨a, b⟩ := kv
    simp only [List.map_cons, List.mem_cons] at h
    by_cases hk : k == a
    · simp [lookupVal, List.lookup, hk]
    · rcases h with h | h
      · exact absurd (beq_iff_eq.mpr h) (by simpa using hk)
      · simpa [lookupVal, List.lookup, hk] using ih h

/-- Passing the field-set check means the key set is exactly
`valid_columns`. -/
lemma keys_eq_of_check_valid {o : Obs}
    (h : (check_valid_column o).1 = true) : obsKeys o = valid_columns := by
  unfold check_valid_column at h
  by_cases h1 : 0 < (valid_columns \ obsKeys o).card
  · simp [h1] at h
  · by_cases h2 : 0 < (obsKeys o \ valid_columns).card
    · simp [h1, h2] at h
    · have e1 : valid_columns \ obsKeys o = ∅ := Finset.card_eq_zero.mp (by omega)
      have e2 : obsKeys o \ valid_columns = ∅ := Finset.card_eq_zero.mp (by omega)
      exact Finset.Subset.antisymm
        (Finset.sdiff_eq_empty_iff_subset.mp e2)
        (Finset.sdiff_eq_empty_iff_subset.mp e1)

/-- A key set equal to `valid_columns` passes the field-set check. -/
lemma check_valid_of_keys_eq {o : Obs}
    (h : obsKeys o = valid_columns) : check_valid_column o = (true, .str "") := by
  unfold check_valid_column
  simp [h]

/-- Claim C4: the field-set check reports the missing fields exactly when
at least one required field is missing (even in the presence of extra
fields), reports the extra fields exactly when none is missing but
unrecognized fields are present, and accepts exactly the full field
set. -/
theorem claim_C4_field_set_check (observation : Obs) :
    ((valid_columns \ obsKeys observation).Nonempty →
      check_valid_column observation =
        (false, .missingSet (valid_columns \ obsKeys observation))) ∧
    (valid_columns \ obsKeys observation = ∅ →
      (obsKeys observation \ valid_columns).Nonempty →
      check_valid_column observation =
        (false, .extraSet (obsKeys observation \ valid_columns))) ∧
    (obsKeys observation = valid_columns →
      check_valid_column observation = (true, .str "")) := by
  refine ⟨?_, ?_, ?_⟩
  · intro hne
    unfold check_valid_column
    simp [Finset.card_pos.mpr hne]
  · intro hmiss hne
    unfold check_valid_column
    simp [hmiss, Finset.card_pos.mpr hne]
  · exact check_valid_of_keys_eq

/-- Witness for C4 at three concrete observations: the empty
observation (all fields missing), the full observation with one extra
field, and the full observation. -/
theorem claim_C4_field_set_check_witness :
    check_valid_column [] = (false, .missingSet (valid_columns \ obsKeys [])) ∧
    check_valid_column exObsExtra =
      (false, .extraSet (obsKeys exObsExtra \ valid_columns)) ∧
    check_valid_column exObs = (true, .str "") :=
  ⟨(claim_C4_field_set_check []).1 (by decide),
   (claim_C4_field_set_check exObsExtra).2.1 (by decide) (by decide),
   (claim_C4_field_set_check exObs).2.2 (by decide)⟩

/-- When every categorical field is present, `check_categorical_values`
is the three-step chain that tests `Type`, then `Reproduction`, then
`Age range`, stopping at the first out-of-set value. -/
lemma checkCat_eq_chain {o : Obs} {v1 v2 v3 : Value}
    (h1 : lookupVal o "Type" = some v1)
    (h2 : lookupVal o "Reproduction" = some v2)
    (h3 : lookupVal o "Age range" = some v3) :
    check_categorical_values o =
      (if v1.inPyList typeCategories then
        if v2.inPyList reproductionCategories then
          if v3.inPyList ageRangeCategories then (true, "")
          else (false, invalidCatMsg "Age range" v3 ageRangeCategories)
        else (false, invalidCatMsg "Reproduction" v2 reproductionCategories)
      else (false, invalidCatMsg "Type" v1 typeCategories)) := by
  unfold check_categorical_values valid_category_map
  simp only [checkCatAux, h1, h2, h3]

/-- Claim C5: with all categorical fields present, the check succeeds
exactly when every categorical value lies in its allowed set, and
otherwise fails at the first out-of-set field in schema order with the
message naming the field, the value, and the single-quoted allowed
set. -/
theorem claim_C5_categorical_value_check (observation : Obs) (v1 v2 v3 : Value)
    (h1 : lookupVal observation "Type" = some v1)
    (h2 : lookupVal observation "Reproduction" = some v2)
    (h3 : lookupVal observation "Age range" = some v3) :
    check_categorical_values observation =
      (if v1.inPyList typeCategories then
        if v2.inPyList reproductionCategories then
          if v3.inPyList ageRangeCategories then (true, "")
          else (false, invalidCatMsg "Age range" v3 ageRangeCategories)
        else (false, invalidCatMsg "Reproduction" v2 reproductionCategories)
      else (false, invalidCatMsg "Type" v1 typeCategories)) ∧
    ((check_categorical_values observation).1 = true ↔
      (v1.inPyList typeCategories ∧ v2.inPyList reproductionCategories ∧
        v3.inPyList ageRangeCategories)) := by
  have hch := checkCat_eq_chain h1 h2 h3
  refine ⟨hch, ?_⟩
  rw [hch]
  by_cases b1 : v1.inPyList typeCategories
  · by_cases b2 : v2.inPyList reproductionCategories
    · by_cases b3 : v3.inPyList ageRangeCategories
      · simp [b1, b2, b3]
      · simp [b1, b2, b3]
    · simp [b1, b2]
  · simp [b1]

/-- Witness for C5 at a concrete observation whose `Type` is valid but
whose `Reproduction` value is out of set: the check stops at
`Reproduction` with the exact message. -/
theorem claim_C5_categorical_value_check_witness :
    check_categorical_values
        [("Type", .str "Spaceship search"), ("Reproduction", .str "Budding"),
         ("Age range", .str "Young")] =
      (false, invalidCatMsg "Reproduction" (.str "Budding") reproductionCategories) ∧
    ((check_categorical_values
        [("Type", .str "Spaceship search"), ("Reproduction", .str "Budding"),
         ("Age range", .str "Young")]).1 = true ↔
      (Value.inPyList (.str "Spaceship search") typeCategories ∧
        Value.inPyList (.str "Budding") reproductionCategories ∧
        Value.inPyList (.str "Young") ageRangeCategories)) := by
  have h := claim_C5_categorical_value_check
    [("Type", .str "Spaceship search"), ("Reproduction", .str "Budding"),
     ("Age range", .str "Young")]
    (.str "Spaceship search") (.str "Budding") (.str "Young")
    (by decide) (by decide) (by decide)
  exact ⟨by rw [h.1]; decide, h.2⟩

/-- An invalid-value message never coincides with the missing-field
message: the former starts with an `I`, the latter with a `C`. -/
lemma invalidCatMsg_ne_missingCatMsg (k : String) (v : Value) (cats : List String) :
    invalidCatMsg k v cats ≠ missingCatMsg := by
  intro h
  have h2 := congrArg (fun s : String => List.head? s.data) h
  simp only [invalidCatMsg, missingCatMsg, String.data_append, List.append_assoc,
    List.cons_append, List.head?_cons, Option.some.injEq] at h2
  exact absurd h2 (by decide)

/-- Claim C10: every categorical field belongs to the required field
set, so an observation passing the field-set check contains each of
them, and the missing-categorical-field branch can then never fire. -/
theorem claim_C10_missing_branch_unreachable (observation : Obs) (kc : String)
    (h : (check_valid_column observation).1 = true)
    (hkc : kc ∈ List.map Prod.fst valid_category_map) :
    kc ∈ valid_columns ∧ (lookupVal observation kc).isSome ∧
      check_categorical_values observation ≠ (false, missingCatMsg) := by
  have hkeys := keys_eq_of_check_valid h
  have hkc3 : kc = "Type" ∨ kc = "Reproduction" ∨ kc = "Age range" := by
    simpa [valid_category_map] using hkc
  have hmemv : kc ∈ valid_columns := by
    rcases hkc3 with rfl | rfl | rfl
    · decide
    · decide
    · decide
  have hpres : ∀ k, k ∈ valid_columns → (lookupVal observation k).isSome := by
    intro k hk
    apply lookup_isSome_of_mem_keys
    have hmem : k ∈ obsKeys observation := by rw [hkeys]; exact hk
    simpa [obsKeys, List.mem_toFinset] using hmem
  refine ⟨hmemv, hpres kc hmemv, ?_⟩
  obtain ⟨vT, hT⟩ := Option.isSome_iff_exists.mp (hpres "Type" (by decide))
  obtain ⟨vR, hR⟩ := Option.isSome_iff_exists.mp (hpres "Reproduction" (by decide))
  obtain ⟨vA, hA⟩ := Option.isSome_iff_exists.mp (hpres "Age range" (by decide))
  rw [checkCat_eq_chain hT hR hA]
  by_cases b1 : vT.inPyList typeCategories
  · by_cases b2 : vR.inPyList reproductionCategories
    · by_cases b3 : vA.inPyList ageRangeCategories
      · simp [b1, b2, b3]
      · simp only [b1, b2, b3, if_true, if_false, Bool.false_eq_true, ite_false, ite_true]
        simpa using invalidCatMsg_ne_missingCatMsg "Age range" vA ageRangeCategories
    · simp only [b1, b2, if_true, if_false, Bool.false_eq_true, ite_false, ite_true]
      simpa using invalidCatMsg_ne_missingCatMsg "Reproduction" vR reproductionCategories
  · simp only [b1, Bool.false_eq_true, ite_false]
    simpa using invalidCatMsg_ne_missingCatMsg "Type" vT typeCategories

/-- Witness for C10 at the example observation and the field `Type`. -/
theorem claim_C10_missing_branch_unreachable_witness :
    "Type" ∈ valid_columns ∧ (lookupVal exObs "Type").isSome ∧
      check_categorical_values exObs ≠ (false, missingCatMsg) :=
  claim_C10_missing_branch_unreachable exObs "Type" (by decide) (by decide)

/-- Claim C6 (divergence): on an observation altogether lacking the
categorical field `Type`, the check fails with the literal string
`Categorical field \x7b\x7d missing` — the `.format(key)` call was
forgotten, so the error does not name the missing field: no field name
occurs in the message's character sequence. -/
theorem claim_C6_missing_field_not_named :
    check_categorical_values [("Reproduction", .str "Sexual"), ("Age range", .str "Young")] =
      (false, "Categorical field \x7b\x7d missing") ∧
    ¬ ("Type".data <:+: missingCatMsg.data) ∧
    ¬ ("Reproduction".data <:+: missingCatMsg.data) ∧
    ¬ ("Age range".data <:+: missingCatMsg.data) := by
  refine ⟨by decide, by decide, by decide, by decide⟩

/-- With a valid observation and a fresh id, the insert succeeds and
`predict` appends the new row and answers with id and label. -/
lemma predict_insert_success (oracle : Obs → Bool) (observation : Obs)
    (rawData : String) (s : Store) (idv : Value)
    (hv : (check_valid_column observation).1 = true)
    (hc : (check_categorical_values observation).1 = true)
    (hid : lookupVal observation "observation_id" = some idv)
    (habs : ∀ p ∈ s, p.observation_id ≠ idv.pyStr) :
    predict oracle observation rawData s =
      some (⟨some idv, some (oracle observation), none⟩,
        s ++ [⟨idv.pyStr, rawData, .bool (oracle observation)⟩]) := by
  have hany : List.any s (fun p => p.observation_id == idv.pyStr) = false := by
    rw [List.any_eq_false]
    intro p hp
    simpa using habs p hp
  have hins : insertRecord s ⟨idv.pyStr, rawData, .bool (oracle observation)⟩ =
      some (s ++ [⟨idv.pyStr, rawData, .bool (oracle observation)⟩]) := by
    unfold insertRecord
    simp [hany]
  rcases hvE : check_valid_column observation with ⟨b1, e1⟩
  have hb1 : b1 = true := by rw [hvE] at hv; exact hv
  subst hb1
  rcases hcE : check_categorical_values observation with ⟨b2, e2⟩
  have hb2 : b2 = true := by rw [hcE] at hc; exact hc
  subst hb2
  simp only [predict, hvE, hcE, hid, hins]

/-- With a valid observation whose id is already present, the insert
raises and `predict` answers with id, label, and the soft error,
leaving the store untouched. -/
lemma predict_duplicate (oracle : Obs → Bool) (observation : Obs)
    (rawData : String) (s : Store) (idv : Value)
    (hv : (check_valid_column observation).1 = true)
    (hc : (check_categorical_values observation).1 = true)
    (hid : lookupVal observation "observation_id" = some idv)
    (hdup : ∃ p ∈ s, p.observation_id = idv.pyStr) :
    predict oracle observation rawData s =
      some (⟨some idv, some (oracle observation),
        some (.str (alreadyExistsMsg idv.pyStr))⟩, s) := by
  have hany : List.any s (fun p => p.observation_id == idv.pyStr) = true := by
    rw [List.any_eq_true]
    obtain ⟨p, hp, he⟩ := hdup
    exact ⟨p, hp, by simpa using he⟩
  have hins : insertRecord s ⟨idv.pyStr, rawData, .bool (oracle observation)⟩ = none := by
    unfold insertRecord
    simp [hany]
  rcases hvE : check_valid_column observation with ⟨b1, e1⟩
  have hb1 : b1 = true := by rw [hvE] at hv; exact hv
  subst hb1
  rcases hcE : check_categorical_values observation with ⟨b2, e2⟩
  have hb2 : b2 = true := by rw [hcE] at hc; exact hc
  subst hb2
  simp only [predict, hvE, hcE, hid, hins]

/-- Label rewriting distributes over a clean prefix of the store. -/
lemma updateFirstLabel_append (s1 rest : Store) (id : String) (lv : Value)
    (h : ∀ p ∈ s1, p.observation_id ≠ id) :
    updateFirstLabel (s1 ++ rest) id lv = s1 ++ updateFirstLabel rest id lv := by
  induction s1 with
  | nil => simp
  | cons p s ih =>
    have hp : ¬ (p.observation_id == id) = true := by
      simpa using h p (by simp)
    simp only [List.cons_append, updateFirstLabel, if_neg hp, List.cons.injEq, true_and]
    exact ih (fun q hq => h q (by simp [hq]))

/-- Claim C3: whenever either validation check fails, `predict` answers
with only the corresponding error, the store is unchanged, and the
result does not depend on the oracle (the pipeline is never invoked). -/
theorem claim_C3_validation_failure_pure (oracle oracle2 : Obs → Bool)
    (observation : Obs) (rawData : String) (s : Store)
    (hfail : (check_valid_column observation).1 = false ∨
      (check_categorical_values observation).1 = false) :
    predict oracle observation rawData s =
      some (⟨none, none,
        some (if (check_valid_column observation).1
          then .str (check_categorical_values observation).2
          else (check_valid_column observation).2)⟩, s) ∧
    predict oracle observation rawData s = predict oracle2 observation rawData s := by
  rcases hv : check_valid_column observation with ⟨b1, e1⟩
  cases b1 with
  | false =>
    refine ⟨?_, ?_⟩
    · simp [predict, hv]
    · simp [predict, hv]
  | true =>
    rcases hc : check_categorical_values observation with ⟨b2, e2⟩
    cases b2 with
    | false =>
      refine ⟨?_, ?_⟩
      · simp [predict, hv, hc]
      · simp [predict, hv, hc]
    | true =>
      rw [hv, hc] at hfail
      simp at hfail

/-- Witness for C3 at the example observation with its `Age range`
field renamed, which fails the field-set check. -/
theorem claim_C3_validation_failure_pure_witness :
    predict (fun _ => true) [("observation_id", .str "a")] "raw" [] =
      some (⟨none, none,
        some (if (check_valid_column [("observation_id", .str "a")]).1
          then .str (check_categorical_values [("observation_id", .str "a")]).2
          else (check_valid_column [("observation_id", .str "a")]).2)⟩, []) ∧
    predict (fun _ => true) [("observation_id", .str "a")] "raw" [] =
      predict (fun _ => false) [("observation_id", .str "a")] "raw" [] :=
  claim_C3_validation_failure_pure (fun _ => true) (fun _ => false)
    [("observation_id", .str "a")] "raw" [] (by decide)

/-- Claim C7: `update` on an id with no matching row answers with
exactly the not-found error and returns the store unchanged. -/
theorem claim_C7_update_not_found (observation : Obs) (s : Store) (idv : Value)
    (hid : lookupVal observation "observation_id" = some idv)
    (habs : ∀ p ∈ s, p.observation_id ≠ idv.pyStr) :
    update observation s =
      some (⟨none, none, some (.str (doesNotExistMsg idv.pyStr))⟩, s) ∧
    doesNotExistMsg idv.pyStr =
      "Observation ID: \"" ++ idv.pyStr ++ "\" does not exist" := by
  have hfind : List.find? (fun p => p.observation_id == idv.pyStr) s = none := by
    rw [List.find?_eq_none]
    intro p hp
    simpa using habs p hp
  constructor
  · simp only [update, hid, hfind]
  · rfl

/-- Witness for C7: updating an empty store. -/
theorem claim_C7_update_not_found_witness :
    update [("observation_id", .str "nope"), ("label", .bool true)] [] =
      some (⟨none, none, some (.str (doesNotExistMsg "nope"))⟩, []) ∧
    doesNotExistMsg "nope" = "Observation ID: \"" ++ "nope" ++ "\" does not exist" :=
  claim_C7_update_not_found [("observation_id", .str "nope"), ("label", .bool true)]
    [] (.str "nope") (by decide) (by intro p hp; simp at hp)

/-- `update` on an id whose first matching row is `r` rewrites exactly
that row's label to the string form of the given label and answers
with the id and the boolean coercion of the given label. -/
lemma update_found (observation : Obs) (s1 s2 : Store)
    (r : PredRecord) (idv lv : Value)
    (hid : lookupVal observation "observation_id" = some idv)
    (hlab : lookupVal observation "label" = some lv)
    (hr : r.observation_id = idv.pyStr)
    (hfirst : ∀ p ∈ s1, p.observation_id ≠ idv.pyStr) :
    update observation (s1 ++ r :: s2) =
      some (⟨some idv, some lv.pyBool, none⟩,
        s1 ++ ⟨r.observation_id, r.observation, .str lv.pyStr⟩ :: s2) := by
  have hfind1 : List.find? (fun p => p.observation_id == idv.pyStr) s1 = none := by
    rw [List.find?_eq_none]
    intro p hp
    simpa using hfirst p hp
  have hfind : List.find? (fun p => p.observation_id == idv.pyStr) (s1 ++ r :: s2) =
      some r := by
    rw [List.find?_append, hfind1]
    simp [List.find?, hr]
  have hupd : updateFirstLabel (s1 ++ r :: s2) idv.pyStr (.str lv.pyStr) =
      s1 ++ ⟨r.observation_id, r.observation, .str lv.pyStr⟩ :: s2 := by
    rw [updateFirstLabel_append s1 (r :: s2) idv.pyStr (.str lv.pyStr) hfirst]
    simp [updateFirstLabel, hr]
  simp only [update, hid, hfind, hlab, hupd]

/-- Claim C8: `update` on an id whose row exists overwrites only that
row's label (its id and raw observation fields, and every other row,
are untouched) and answers with the id and the boolean coercion of the
given label. -/
theorem claim_C8_update_found (observation : Obs) (s1 s2 : Store)
    (r : PredRecord) (idv lv : Value)
    (hid : lookupVal observation "observation_id" = some idv)
    (hlab : lookupVal observation "label" = some lv)
    (hr : r.observation_id = idv.pyStr)
    (hfirst : ∀ p ∈ s1, p.observation_id ≠ idv.pyStr) :
    update observation (s1 ++ r :: s2) =
      some (⟨some idv, some lv.pyBool, none⟩,
        s1 ++ ⟨r.observation_id, r.observation, .str lv.pyStr⟩ :: s2) :=
  update_found observation s1 s2 r idv lv hid hlab hr hfirst

/-- Witness for C8: correcting the label of the only stored row. -/
theorem claim_C8_update_found_witness :
    update [("observation_id", .str "a"), ("label", .bool false)]
        ([] ++ (⟨"a", "raw", .bool true⟩ : PredRecord) :: []) =
      some (⟨some (.str "a"), some (Value.pyBool (.bool false)), none⟩,
        [] ++ (⟨"a", "raw", .str (Value.pyStr (.bool false))⟩ : PredRecord) :: []) :=
  claim_C8_update_found [("observation_id", .str "a"), ("label", .bool false)]
    [] [] ⟨"a", "raw", .bool true⟩ (.str "a") (.bool false)
    (by decide) (by decide) (by decide) (by intro p hp; simp at hp)

/-- Claim C2: inserting a fresh id persists the row and answers without
error; a second record-and-predict with the same id answers with the
id, the freshly computed label and the duplicate-key error, and the
store keeps exactly the one row of the first call, unchanged. -/
theorem claim_C2_duplicate_soft_fail (oracle : Obs → Bool)
    (observation observation2 : Obs) (rawData rawData2 : String) (s : Store)
    (idv idv2 : Value)
    (hv : (check_valid_column observation).1 = true)
    (hc : (check_categorical_values observation).1 = true)
    (hid : lookupVal observation "observation_id" = some idv)
    (habs : ∀ p ∈ s, p.observation_id ≠ idv.pyStr)
    (hv2 : (check_valid_column observation2).1 = true)
    (hc2 : (check_categorical_values observation2).1 = true)
    (hid2 : lookupVal observation2 "observation_id" = some idv2)
    (heq : idv2.pyStr = idv.pyStr) :
    predict oracle observation rawData s =
      some (⟨some idv, some (oracle observation), none⟩,
        s ++ [⟨idv.pyStr, rawData, .bool (oracle observation)⟩]) ∧
    predict oracle observation2 rawData2
        (s ++ [⟨idv.pyStr, rawData, .bool (oracle observation)⟩]) =
      some (⟨some idv2, some (oracle observation2),
          some (.str (alreadyExistsMsg idv2.pyStr))⟩,
        s ++ [⟨idv.pyStr, rawData, .bool (oracle observation)⟩]) ∧
    List.filter (fun p => p.observation_id == idv.pyStr)
        (s ++ [⟨idv.pyStr, rawData, .bool (oracle observation)⟩]) =
      [⟨idv.pyStr, rawData, .bool (oracle observation)⟩] := by
  refine ⟨predict_insert_success oracle observation rawData s idv hv hc hid habs,
    ?_, ?_⟩
  · apply predict_duplicate oracle observation2 rawData2 _ idv2 hv2 hc2 hid2
    exact ⟨⟨idv.pyStr, rawData, .bool (oracle observation)⟩, by simp, by simp [heq]⟩
  · rw [List.filter_append]
    have hnil : List.filter (fun p => p.observation_id == idv.pyStr) s = [] := by
      rw [List.filter_eq_nil_iff]
      intro p hp
      simpa using habs p hp
    rw [hnil]
    simp

/-- Witness for C2: the example observation recorded twice from the
empty store. -/
theorem claim_C2_duplicate_soft_fail_witness :
    predict (fun _ => true) exObs "raw" [] =
      some (⟨some (.str "8b2de40d-d98b-4cb5-aa49-f471gbja89"), some true, none⟩,
        [] ++ [⟨Value.pyStr (.str "8b2de40d-d98b-4cb5-aa49-f471gbja89"), "raw", .bool true⟩]) ∧
    predict (fun _ => true) exObs "raw2"
        ([] ++ [⟨Value.pyStr (.str "8b2de40d-d98b-4cb5-aa49-f471gbja89"), "raw", .bool true⟩]) =
      some (⟨some (.str "8b2de40d-d98b-4cb5-aa49-f471gbja89"), some true,
          some (.str (alreadyExistsMsg (Value.pyStr (.str "8b2de40d-d98b-4cb5-aa49-f471gbja89"))))⟩,
        [] ++ [⟨Value.pyStr (.str "8b2de40d-d98b-4cb5-aa49-f471gbja89"), "raw", .bool true⟩]) ∧
    List.filter
        (fun p : PredRecord =>
          p.observation_id == Value.pyStr (.str "8b2de40d-d98b-4cb5-aa49-f471gbja89"))
        ([] ++ [⟨Value.pyStr (.str "8b2de40d-d98b-4cb5-aa49-f471gbja89"), "raw", .bool true⟩]) =
      [⟨Value.pyStr (.str "8b2de40d-d98b-4cb5-aa49-f471gbja89"), "raw", .bool true⟩] :=
  claim_C2_duplicate_soft_fail (fun _ => true) exObs exObs "raw" "raw2" []
    (.str "8b2de40d-d98b-4cb5-aa49-f471gbja89") (.str "8b2de40d-d98b-4cb5-aa49-f471gbja89")
    (by decide) (by decide) (by decide) (by intro p hp; simp at hp)
    (by decide) (by decide) (by decide) rfl

/-- Claim C9: after a successful record-and-predict the stored label is
the native boolean computed by the pipeline, whereas after
correct-label it is the string form of the input's label value — and a
string value is never a boolean value. -/
theorem claim_C9_label_representation_differs (oracle : Obs → Bool)
    (observation : Obs) (rawData : String) (s : Store) (idv : Value)
    (observation2 : Obs) (s1 s2 : Store) (r : PredRecord) (idv2 lv : Value)
    (a : String) (b : Bool)
    (hv : (check_valid_column observation).1 = true)
    (hc : (check_categorical_values observation).1 = true)
    (hid : lookupVal observation "observation_id" = some idv)
    (habs : ∀ p ∈ s, p.observation_id ≠ idv.pyStr)
    (hid2 : lookupVal observation2 "observation_id" = some idv2)
    (hlab2 : lookupVal observation2 "label" = some lv)
    (hr : r.observation_id = idv2.pyStr)
    (hfirst : ∀ p ∈ s1, p.observation_id ≠ idv2.pyStr) :
    predict oracle observation rawData s =
      some (⟨some idv, some (oracle observation), none⟩,
        s ++ [⟨idv.pyStr, rawData, .bool (oracle observation)⟩]) ∧
    update observation2 (s1 ++ r :: s2) =
      some (⟨some idv2, some lv.pyBool, none⟩,
        s1 ++ ⟨r.observation_id, r.observation, .str lv.pyStr⟩ :: s2) ∧
    Value.str a ≠ Value.bool b :=
  ⟨predict_insert_success oracle observation rawData s idv hv hc hid habs,
   update_found observation2 s1 s2 r idv2 lv hid2 hlab2 hr hfirst,
   by intro h; cases h⟩

/-- Witness for C9: record the example observation into the empty
store, then correct the label of a one-row store. -/
theorem claim_C9_label_representation_differs_witness :
    predict (fun _ => false) exObs "raw" [] =
      some (⟨some (.str "8b2de40d-d98b-4cb5-aa49-f471gbja89"), some false, none⟩,
        [] ++ [⟨Value.pyStr (.str "8b2de40d-d98b-4cb5-aa49-f471gbja89"), "raw", .bool false⟩]) ∧
    update [("observation_id", .str "a"), ("label", .bool true)]
        ([] ++ (⟨"a", "raw", .bool false⟩ : PredRecord) :: []) =
      some (⟨some (.str "a"), some (Value.pyBool (.bool true)), none⟩,
        [] ++ (⟨"a", "raw", .str (Value.pyStr (.bool true))⟩ : PredRecord) :: []) ∧
    Value.str "True" ≠ Value.bool true :=
  claim_C9_label_representation_differs (fun _ => false) exObs "raw" []
    (.str "8b2de40d-d98b-4cb5-aa49-f471gbja89")
    [("observation_id", .str "a"), ("label", .bool true)] [] []
    ⟨"a", "raw", .bool false⟩ (.str "a") (.bool true) "True" true
    (by decide) (by decide) (by decide) (by intro p hp; simp at hp)
    (by decide) (by decide) (by decide) (by intro p hp; simp at hp)

/-- Rewriting a label never changes the stored ids. -/
lemma updateFirstLabel_map_id (s : Store) (id : String) (lv : Value) :
    List.map PredRecord.observation_id (updateFirstLabel s id lv) =
      List.map PredRecord.observation_id s := by
  induction s with
  | nil => rfl
  | cons p rest ih =>
    by_cases h : (p.observation_id == id) = true
    · simp [updateFirstLabel, h]
    · simp [updateFirstLabel, h, ih]

/-- A successful insert preserves the uniqueness invariant: the insert
itself refuses a duplicate id, so the appended id is fresh. -/
lemma insertRecord_unique {s s2 : Store} {rec : PredRecord}
    (hu : UniqueIds s) (h : insertRecord s rec = some s2) : UniqueIds s2 := by
  unfold insertRecord at h
  by_cases hany : List.any s (fun p => p.observation_id == rec.observation_id) = true
  · rw [if_pos hany] at h
    cases h
  · rw [if_neg hany] at h
    cases h
    unfold UniqueIds at hu ⊢
    rw [List.map_append, List.nodup_append]
    refine ⟨hu, List.nodup_singleton _, ?_⟩
    intro a ha hb
    simp only [List.map_cons, List.map_nil, List.mem_singleton] at hb
    subst hb
    simp only [List.any_eq_true, not_exists, not_and, Bool.not_eq_true] at hany
    obtain ⟨p, hp, hpa⟩ := List.mem_map.mp ha
    have := hany p hp
    rw [hpa] at this
    simp at this

/-- The store after `predict` is either untouched or extended by a
successful insert. -/
lemma predict_snd {oracle : Obs → Bool} {o : Obs} {rawData : String}
    {s : Store} {r : Response} {s2 : Store}
    (h : predict oracle o rawData s = some (r, s2)) :
    s2 = s ∨ ∃ rec, insertRecord s rec = some s2 := by
  unfold predict at h
  split at h
  · simp only [Option.some.injEq, Prod.mk.injEq] at h
    exact Or.inl h.2.symm
  · split at h
    · simp only [Option.some.injEq, Prod.mk.injEq] at h
      exact Or.inl h.2.symm
    · split at h
      · cases h
      · dsimp only at h
        split at h
        next s3 hins =>
          simp only [Option.some.injEq, Prod.mk.injEq] at h
          exact Or.inr ⟨_, by rw [hins, h.2]⟩
        next hins =>
          simp only [Option.some.injEq, Prod.mk.injEq] at h
          exact Or.inl h.2.symm

/-- The store after `update` is either untouched or a label rewrite. -/
lemma update_snd {o : Obs} {s : Store} {r : Response} {s2 : Store}
    (h : update o s = some (r, s2)) :
    s2 = s ∨ ∃ id lv, s2 = updateFirstLabel s id lv := by
  unfold update at h
  split at h
  · cases h
  · split at h
    · simp only [Option.some.injEq, Prod.mk.injEq] at h
      exact Or.inl h.2.symm
    · split at h
      · cases h
      · simp only [Option.some.injEq, Prod.mk.injEq] at h
        exact Or.inr ⟨_, _, h.2.symm⟩

/-- Evaluation of `applyOp` on a successful `predict`. -/
lemma applyOp_predict_some {oracle : Obs → Bool} {o : Obs} {rawData : String}
    {s : Store} {r : Response} {s2 : Store}
    (h : predict oracle o rawData s = some (r, s2)) :
    applyOp oracle s (Op.predictReq o rawData) = s2 := by
  simp only [applyOp, h]

/-- Evaluation of `applyOp` on a faulting `predict`. -/
lemma applyOp_predict_none {oracle : Obs → Bool} {o : Obs} {rawData : String}
    {s : Store} (h : predict oracle o rawData s = none) :
    applyOp oracle s (Op.predictReq o rawData) = s := by
  simp only [applyOp, h]

/-- Evaluation of `applyOp` on a successful `update`. -/
lemma applyOp_update_some {oracle : Obs → Bool} {o : Obs}
    {s : Store} {r : Response} {s2 : Store}
    (h : update o s = some (r, s2)) :
    applyOp oracle s (Op.updateReq o) = s2 := by
  simp only [applyOp, h]

/-- Evaluation of `applyOp` on a faulting `update`. -/
lemma applyOp_update_none {oracle : Obs → Bool} {o : Obs}
    {s : Store} (h : update o s = none) :
    applyOp oracle s (Op.updateReq o) = s := by
  simp only [applyOp, h]

/-- One request preserves the uniqueness invariant. -/
lemma applyOp_unique (oracle : Obs → Bool) (s : Store) (op : Op)
    (hu : UniqueIds s) : UniqueIds (applyOp oracle s op) := by
  cases op with
  | predictReq o rawData =>
    cases h : predict oracle o rawData s with
    | none => rw [applyOp_predict_none h]; exact hu
    | some pr =>
      obtain ⟨r, s2⟩ := pr
      rw [applyOp_predict_some h]
      rcases predict_snd h with he | ⟨rec, hins⟩
      · rw [he]; exact hu
      · exact insertRecord_unique hu hins
  | updateReq o =>
    cases h : update o s with
    | none => rw [applyOp_update_none h]; exact hu
    | some pr =>
      obtain ⟨r, s2⟩ := pr
      rw [applyOp_update_some h]
      rcases update_snd h with he | ⟨id, lv, he⟩
      · rw [he]; exact hu
      · rw [he]
        unfold UniqueIds
        rw [updateFirstLabel_map_id]
        exact hu

/-- Any request sequence preserves the uniqueness invariant. -/
lemma run_unique (oracle : Obs → Bool) (ops : List Op) :
    ∀ s : Store, UniqueIds s → UniqueIds (run oracle s ops) := by
  induction ops with
  | nil => intro s hu; exact hu
  | cons op rest ih =>
    intro s hu
    exact ih _ (applyOp_unique oracle s op hu)

/-- Claim C1: starting from a store with pairwise-distinct ids, any
sequence of record-and-predict and correct-label requests keeps the
ids pairwise distinct, and the insert itself is what refuses a
duplicate: it raises exactly when a row with the same id exists. -/
theorem claim_C1_at_most_one_row_per_id (oracle : Obs → Bool) (s : Store)
    (ops : List Op) (rec : PredRecord) (hu : UniqueIds s) :
    UniqueIds (run oracle s ops) ∧
      (insertRecord s rec = none ↔
        ∃ p ∈ s, p.observation_id = rec.observation_id) := by
  refine ⟨run_unique oracle ops s hu, ?_⟩
  have hiff : insertRecord s rec = none ↔
      List.any s (fun p => p.observation_id == rec.observation_id) = true := by
    unfold insertRecord
    split
    next hany => simp [hany]
    next hany => simp [hany]
  rw [hiff, List.any_eq_true]
  constructor
  · rintro ⟨p, hp, he⟩
    exact ⟨p, hp, by simpa using he⟩
  · rintro ⟨p, hp, he⟩
    exact ⟨p, hp, by simpa using he⟩

/-- Witness for C1: two identical record-and-predict requests from the
empty store, plus the duplicate characterization on a singleton
store. -/
theorem claim_C1_at_most_one_row_per_id_witness :
    UniqueIds (run (fun _ => true)
      [⟨"a", "raw", .bool true⟩]
      [Op.predictReq exObs "raw", Op.predictReq exObs "raw"]) ∧
      (insertRecord [⟨"a", "raw", .bool true⟩] ⟨"a", "raw2", .bool false⟩ = none ↔
        ∃ p ∈ ([⟨"a", "raw", .bool true⟩] : Store),
          p.observation_id = PredRecord.observation_id ⟨"a", "raw2", .bool false⟩) :=
  claim_C1_at_most_one_row_per_id (fun _ => true) [⟨"a", "raw", .bool true⟩]
    [Op.predictReq exObs "raw", Op.predictReq exObs "raw"]
    ⟨"a", "raw2", .bool false⟩ (by exact List.nodup_singleton _)

end App
